import Mathlib

/-!
# Verification of `lib/auth/register.go` (teleport node registration)

Shallow embedding of the join / re-register / local-register protocol of
`lib/auth/register.go`.  External collaborators (the network transport, the
filesystem, the certificate parser and the authority) are modelled as an
explicit environment `Env` of oracle functions, and every observable client
operation (client construction, `GetLocalCA`, `RegisterUsingToken`,
`GenerateServerKeys`, `Close`) is recorded in an event trace, so that the
temporal and counting properties of the spec become statements about traces.

Byte strings (`[]byte`) are modelled as `List Nat`; Go strings as `String`.
Clients are identified by their creation index within one call.
-/

/-- Go `[]byte`. -/
abbrev Bytes := List Nat

/-- `IdentityID` (declared outside `register.go`): who is joining — host UUID,
node name and role. -/
structure IdentityID where
  HostUUID : String
  NodeName : String
  Role : String
deriving DecidableEq, Repr

/-- A parsed X509 certificate (result of `tlsca.ParseCertificatePEM`), reduced
to the attributes the protocol inspects: the subject common name (logged) and
the SPKI public-key fingerprint checked against a CA pin. -/
structure Cert where
  SubjectCommonName : String
  Fingerprint : String
deriving DecidableEq, Repr

/-- The client TLS configuration (`crypto/tls.Config`), reduced to the fields
`register.go` sets: cipher suites, `InsecureSkipVerify` and the `RootCAs`
pool (modelled as the list of certificates added to the pool; a fresh
`x509.NewCertPool()` is the empty list and `AddCert` appends). -/
structure TLSConfig where
  CipherSuites : List Nat
  InsecureSkipVerify : Bool
  RootCAs : List Cert
deriving DecidableEq, Repr

/-- Modelled from the spec: `utils.TLSConfig` (`lib/utils`, not under `src/`)
builds a client TLS configuration with the given cipher suites and default
secure settings — server verification on, empty root CA pool. -/
def utilsTLSConfig (cipherSuites : List Nat) : TLSConfig :=
  { CipherSuites := cipherSuites, InsecureSkipVerify := false, RootCAs := [] }

/-- `RegisterUsingTokenRequest`: the issuance request sent by `Register`.
Note it carries only the public TLS and SSH keys, never a private key. -/
structure RegisterUsingTokenRequest where
  Token : String
  HostID : String
  NodeName : String
  Role : String
  AdditionalPrincipals : List String
  PublicTLSKey : Bytes
  PublicSSHKey : Bytes
deriving DecidableEq, Repr

/-- `GenerateServerKeysRequest`: the key-generation request used by
`LocalRegister` (which leaves the public-key fields at their zero value `[]`)
and by `ReRegister` (which fills them). -/
structure GenerateServerKeysRequest where
  HostID : String
  NodeName : String
  Roles : List String
  AdditionalPrincipals : List String
  PublicTLSKey : Bytes
  PublicSSHKey : Bytes
deriving DecidableEq, Repr

/-- The content of an issued SSH host certificate.  In Go this is an encoded
blob (`[]byte`); here the encoded content is modelled structurally, carrying
the identity the authority bound the certificate to, so that identity
assembly can read it back. -/
structure SSHCert where
  CertHostUUID : String
  CertNodeName : String
  CertRole : String
  CertPub : Bytes
deriving DecidableEq, Repr

/-- `PackedKeys`: the authority's issuance response — private key, SSH host
certificate, X509 certificate, and the CA certificates chain. -/
structure PackedKeys where
  Key : Bytes
  Cert : SSHCert
  TLSCert : Bytes
  TLSCACerts : List Bytes
deriving DecidableEq, Repr

/-- The error taxonomy of the protocol.  `trace.Wrap` preserves the wrapped
error's type, so propagated errors keep their constructor. -/
inductive RegErr where
  | badParameter (msg : String)
  | trustVerification (msg : String)
  | connection (msg : String)
  | parseError (msg : String)
  | serverRejected (msg : String)
  | other (msg : String)
deriving DecidableEq, Repr

/-- Modelled from the spec: `Identity` and `ReadIdentityFromKeyPair` live in
`lib/auth/identity.go`, which is not under `src/`.  An `Identity` is the
materialized runtime credential: the private key paired with the signed
certificates, with the host identity read from the SSH certificate. -/
structure Identity where
  KeyBytes : Bytes
  IdCert : SSHCert
  TLSCertBytes : Bytes
  TLSCACertsBytes : List Bytes
  ID : IdentityID
deriving DecidableEq, Repr

/-- Modelled from the spec: `ReadIdentityFromKeyPair` combines a private key
with the returned certificates into an `Identity`; the host identity is the
one the SSH certificate is bound to. -/
def ReadIdentityFromKeyPair (keyBytes : Bytes) (cert : SSHCert) (tlsCertBytes : Bytes)
    (tlsCACerts : List Bytes) : Identity :=
  { KeyBytes := keyBytes, IdCert := cert, TLSCertBytes := tlsCertBytes,
    TLSCACertsBytes := tlsCACerts,
    ID := { HostUUID := cert.CertHostUUID, NodeName := cert.CertNodeName,
            Role := cert.CertRole } }

/-- Modelled from the spec: `IdentityID.HostID` (declared outside `src/`)
yields the host identity used to bind the issued certificates. -/
def IdentityID.HostID (id : IdentityID) : Except RegErr String :=
  .ok id.HostUUID

/-- Modelled from the spec: `utils.CheckSKPI` (`lib/utils`, not under `src/`)
compares the caller-supplied pin with the certificate's public-key
fingerprint; a mismatch is a hard trust-verification failure. -/
def CheckSKPI (caPin : String) (cert : Cert) : Except RegErr Unit :=
  if cert.Fingerprint = caPin then .ok ()
  else .error (.trustVerification "CA pin does not match fingerprint")

/-- One observable operation on the external collaborators.  Clients are
named by their creation index within the call being traced. -/
inductive Event where
  | newClient (id : Nat) (servers : List String) (cfg : TLSConfig)
  | getLocalCA (id : Nat)
  | registerUsingToken (id : Nat) (req : RegisterUsingTokenRequest)
  | generateServerKeys (req : GenerateServerKeysRequest)
  | closeClient (id : Nat)
deriving DecidableEq, Repr

/-- The external world: filesystem, dialing, and the (possibly fake)
authority's responses.  `getLocalCA` already projects the returned CA to its
`TLSCA` PEM bytes, which is all `pinRegisterClient` reads from it. -/
structure Env where
  readFile : String → Option String
  readPath : String → Except RegErr Bytes
  parseCertificatePEM : Bytes → Except RegErr Cert
  dial : List String → TLSConfig → Except RegErr Unit
  getLocalCA : Except RegErr Bytes
  registerUsingToken : RegisterUsingTokenRequest → Except RegErr PackedKeys
  generateServerKeys : GenerateServerKeysRequest → Except RegErr PackedKeys

/-- `RegisterParams`: parameters for the first-time register operation. -/
structure RegisterParams where
  DataDir : String
  Token : String
  ID : IdentityID
  Servers : List String
  AdditionalPrincipals : List String
  PrivateKey : Bytes
  PublicTLSKey : Bytes
  PublicSSHKey : Bytes
  CipherSuites : List Nat
  CAPath : String
  CAPin : String
  InsecureSkipCAVerification : Bool
deriving DecidableEq, Repr

/-- Go `strings.HasPrefix`, on the character-list view of the string. -/
def goHasPrefix (s pre : String) : Bool :=
  pre.data.isPrefixOf s.data

/-- The whitespace set of Go's `unicode.IsSpace` restricted to Latin-1
(`\t \n \v \f \r` space, NEL `U+0085`, NBSP `U+00A0`); whitespace code
points above Latin-1 are not modelled. -/
def goIsSpace (c : Char) : Bool :=
  c = ' ' || c = Char.ofNat 9 || c = Char.ofNat 10 || c = Char.ofNat 11 ||
  c = Char.ofNat 12 || c = Char.ofNat 13 || c = Char.ofNat 0x85 || c = Char.ofNat 0xA0

/-- Go `strings.TrimSpace`: drop leading and trailing whitespace. -/
def trimSpace (s : String) : String :=
  String.mk (((s.toList.dropWhile goIsSpace).reverse.dropWhile goIsSpace).reverse)

/-- `readToken`: a token not starting with `/` is returned unchanged; one
starting with `/` names a file whose contents are read (`ioutil.ReadFile`,
here the `readFile` oracle; `none` models a read error) and trimmed.  Note
both branches of the file case return a `nil` error in the source: a failed
read yields the empty token with no error. -/
def readToken (readFile : String → Option String) (token : String) :
    Except RegErr String :=
  if ¬ goHasPrefix token "/" then .ok token
  else
    match readFile token with
    | none => .ok ""
    | some out => .ok (trimSpace out)

/-- `insecureRegisterClient`: connect accepting any server certificate.
Returns the new client's index, the emitted events, and the next free
index.  (The `log.Warnf` side effect is observability, not modelled.) -/
def insecureRegisterClient (env : Env) (params : RegisterParams) (n : Nat) :
    Except RegErr Nat × List Event × Nat :=
  let tlsConfig : TLSConfig :=
    { utilsTLSConfig params.CipherSuites with InsecureSkipVerify := true }
  match env.dial params.Servers tlsConfig with
  | .error e => (.error e, [], n)
  | .ok () => (.ok n, [.newClient n params.Servers tlsConfig], n + 1)

/-- `pinRegisterClient`: phase 1 opens an insecure connection and fetches the
root CA; after the SPKI pin check passes, phase 2 opens a second connection
trusting exactly the verified CA.  The source's `defer client.Close()` is
taken when the first client exists and fires at function exit — in
particular, on the success path, after the second client is created. -/
def pinRegisterClient (env : Env) (params : RegisterParams) (n : Nat) :
    Except RegErr Nat × List Event × Nat :=
  let tlsConfig : TLSConfig :=
    { utilsTLSConfig params.CipherSuites with InsecureSkipVerify := true }
  match env.dial params.Servers tlsConfig with
  | .error e => (.error e, [], n)
  | .ok () =>
    match env.getLocalCA with
    | .error e =>
      (.error e, [.newClient n params.Servers tlsConfig, .getLocalCA n, .closeClient n], n + 1)
    | .ok caBytes =>
      match env.parseCertificatePEM caBytes with
      | .error e =>
        (.error e, [.newClient n params.Servers tlsConfig, .getLocalCA n, .closeClient n], n + 1)
      | .ok tlsCA =>
        match CheckSKPI params.CAPin tlsCA with
        | .error e =>
          (.error e, [.newClient n params.Servers tlsConfig, .getLocalCA n, .closeClient n], n + 1)
        | .ok () =>
          let tlsConfig2 : TLSConfig :=
            { utilsTLSConfig params.CipherSuites with RootCAs := [tlsCA] }
          match env.dial params.Servers tlsConfig2 with
          | .error e =>
            (.error e, [.newClient n params.Servers tlsConfig, .getLocalCA n, .closeClient n], n + 1)
          | .ok () =>
            (.ok (n + 1),
             [.newClient n params.Servers tlsConfig, .getLocalCA n,
              .newClient (n + 1) params.Servers tlsConfig2, .closeClient n], n + 2)

/-- `pathRegisterClient`: read a CA certificate from `CAPath`
(`utils.ReadPath`, the `readPath` oracle), parse it, and connect trusting
exactly that certificate. -/
def pathRegisterClient (env : Env) (params : RegisterParams) (n : Nat) :
    Except RegErr Nat × List Event × Nat :=
  match env.readPath params.CAPath with
  | .error e => (.error e, [], n)
  | .ok certBytes =>
    match env.parseCertificatePEM certBytes with
    | .error e => (.error e, [], n)
    | .ok cert =>
      let tlsConfig : TLSConfig :=
        { utilsTLSConfig params.CipherSuites with RootCAs := [cert] }
      match env.dial params.Servers tlsConfig with
      | .error e => (.error e, [], n)
      | .ok () => (.ok n, [.newClient n params.Servers tlsConfig], n + 1)

/-- The trust-strategy switch of `Register` (lines 96–106): first match wins —
insecure flag, else non-empty CA pin, else non-empty CA path, else a
`BadParameter` configuration error with no client constructed. -/
def buildClient (env : Env) (params : RegisterParams) (n : Nat) :
    Except RegErr Nat × List Event × Nat :=
  if params.InsecureSkipCAVerification then insecureRegisterClient env params n
  else if params.CAPin ≠ "" then pinRegisterClient env params n
  else if params.CAPath ≠ "" then pathRegisterClient env params n
  else (.error (.badParameter
    "to register node, either CA pin, CA path, or insecure configuration is required"), [], n)

/-- The part of `Register` after token resolution: build a client, issue the
`RegisterUsingToken` request (public keys only), and assemble the `Identity`
from the returned bundle and the caller's private key.  `defer client.Close()`
fires at exit on both the success and the failure branch of the issuance
call. -/
def registerWithClient (env : Env) (params : RegisterParams) (tok : String) :
    Except RegErr Identity × List Event :=
  match buildClient env params 0 with
  | (.error e, evs, _) => (.error e, evs)
  | (.ok client, evs, _) =>
    let req : RegisterUsingTokenRequest :=
      { Token := tok, HostID := params.ID.HostUUID, NodeName := params.ID.NodeName,
        Role := params.ID.Role, AdditionalPrincipals := params.AdditionalPrincipals,
        PublicTLSKey := params.PublicTLSKey, PublicSSHKey := params.PublicSSHKey }
    match env.registerUsingToken req with
    | .error e => (.error e, evs ++ [.registerUsingToken client req, .closeClient client])
    | .ok keys =>
      (.ok (ReadIdentityFromKeyPair params.PrivateKey keys.Cert keys.TLSCert keys.TLSCACerts),
       evs ++ [.registerUsingToken client req, .closeClient client])

/-- `Register`: resolve the token, then run the client/issuance phase. -/
def Register (env : Env) (params : RegisterParams) :
    Except RegErr Identity × List Event :=
  match readToken env.readFile params.Token with
  | .error e => (.error e, [])
  | .ok tok => registerWithClient env params tok

/-- `LocalRegister`: in-process issuance — one `GenerateServerKeys` call with
the `IdentityID` fields and additional principals (public-key fields left at
their zero value), then identity assembly from the returned bundle including
the bundle's own private key `keys.Key`. -/
def LocalRegister (env : Env) (id : IdentityID) (additionalPrincipals : List String) :
    Except RegErr Identity × List Event :=
  let req : GenerateServerKeysRequest :=
    { HostID := id.HostUUID, NodeName := id.NodeName, Roles := [id.Role],
      AdditionalPrincipals := additionalPrincipals, PublicTLSKey := [], PublicSSHKey := [] }
  match env.generateServerKeys req with
  | .error e => (.error e, [.generateServerKeys req])
  | .ok keys =>
    (.ok (ReadIdentityFromKeyPair keys.Key keys.Cert keys.TLSCert keys.TLSCACerts),
     [.generateServerKeys req])

/-- `ReRegisterParams`: rotation parameters — an already-authenticated client
(whose behavior is the `generateServerKeys` oracle of the `Env`), the
identity to renew, and fresh public keys.  There is no token field. -/
structure ReRegisterParams where
  ID : IdentityID
  AdditionalPrincipals : List String
  PrivateKey : Bytes
  PublicTLSKey : Bytes
  PublicSSHKey : Bytes
deriving DecidableEq, Repr

/-- `ReRegister`: renew certificates over the pre-authenticated client — one
`GenerateServerKeys` call bound to the same host identity, then identity
assembly from the caller's private key and the returned bundle. -/
def ReRegister (env : Env) (params : ReRegisterParams) :
    Except RegErr Identity × List Event :=
  match params.ID.HostID with
  | .error e => (.error e, [])
  | .ok hostID =>
    let req : GenerateServerKeysRequest :=
      { HostID := hostID, NodeName := params.ID.NodeName, Roles := [params.ID.Role],
        AdditionalPrincipals := params.AdditionalPrincipals,
        PublicTLSKey := params.PublicTLSKey, PublicSSHKey := params.PublicSSHKey }
    match env.generateServerKeys req with
    | .error e => (.error e, [.generateServerKeys req])
    | .ok keys =>
      (.ok (ReadIdentityFromKeyPair params.PrivateKey keys.Cert keys.TLSCert keys.TLSCACerts),
       [.generateServerKeys req])

/-- The phase-1 (insecure) TLS configuration built by `insecureRegisterClient`
and by `pinRegisterClient`'s first connection. -/
def phase1Config (params : RegisterParams) : TLSConfig :=
  { CipherSuites := params.CipherSuites, InsecureSkipVerify := true, RootCAs := [] }

/-- The phase-2 TLS configuration built by `pinRegisterClient` after the pin
check: its trust pool is exactly the one verified CA certificate. -/
def phase2Config (params : RegisterParams) (ca : Cert) : TLSConfig :=
  { CipherSuites := params.CipherSuites, InsecureSkipVerify := false, RootCAs := [ca] }

/-- The issuance request `Register` sends for a resolved token `tok`. -/
def tokenRequest (params : RegisterParams) (tok : String) : RegisterUsingTokenRequest :=
  { Token := tok, HostID := params.ID.HostUUID, NodeName := params.ID.NodeName,
    Role := params.ID.Role, AdditionalPrincipals := params.AdditionalPrincipals,
    PublicTLSKey := params.PublicTLSKey, PublicSSHKey := params.PublicSSHKey }

/-- Recognizer for `GetLocalCA` events. -/
def Event.isGetLocalCA : Event → Bool
  | .getLocalCA _ => true
  | _ => false

/-- Recognizer for `RegisterUsingToken` events. -/
def Event.isRegisterUsingToken : Event → Bool
  | .registerUsingToken _ _ => true
  | _ => false

/-! ## Concrete fixtures (fake authorities and parameters used by witnesses) -/

/-- A CA certificate whose fingerprint is the expected pin. -/
def certA : Cert := { SubjectCommonName := "teleport-ca", Fingerprint := "sha256:AAA" }

/-- A CA certificate with a different fingerprint. -/
def certB : Cert := { SubjectCommonName := "mitm-ca", Fingerprint := "sha256:BBB" }

/-- The bundle `B1` issued by the fake authority. -/
def bundleB1 : PackedKeys :=
  { Key := [9, 9],
    Cert := { CertHostUUID := "h1", CertNodeName := "n1", CertRole := "Node", CertPub := [5] },
    TLSCert := [7], TLSCACerts := [[8]] }

/-- A fake environment in which every operation succeeds: the CA parses to
`certA` (pin `"sha256:AAA"`) and issuance returns `bundleB1`. -/
def envOk : Env :=
  { readFile := fun _ => none,
    readPath := fun _ => .ok [2],
    parseCertificatePEM := fun _ => .ok certA,
    dial := fun _ _ => .ok (),
    getLocalCA := .ok [1],
    registerUsingToken := fun _ => .ok bundleB1,
    generateServerKeys := fun _ => .ok bundleB1 }

/-- The same fake environment, but the fetched CA parses to `certB`, whose
fingerprint does not match the pin `"sha256:AAA"`. -/
def envMismatch : Env :=
  { envOk with parseCertificatePEM := fun _ => .ok certB }

/-- Pin-strategy parameters: pin `"sha256:AAA"`, literal token `"t1"`. -/
def paramsPin : RegisterParams :=
  { DataDir := "", Token := "t1",
    ID := { HostUUID := "h1", NodeName := "n1", Role := "Node" },
    Servers := ["auth.example.com:3025"], AdditionalPrincipals := ["p1"],
    PrivateKey := [3], PublicTLSKey := [4], PublicSSHKey := [5],
    CipherSuites := [10], CAPath := "", CAPin := "sha256:AAA",
    InsecureSkipCAVerification := false }

/-- Parameters with no trust strategy set. -/
def paramsNone : RegisterParams :=
  { paramsPin with CAPin := "", CAPath := "", InsecureSkipCAVerification := false }

/-- Parameters with all three trust-strategy fields set at once. -/
def paramsAll : RegisterParams :=
  { paramsPin with CAPath := "/etc/ca.pem", InsecureSkipCAVerification := true }

/-- The identity used for the in-process (local) issuance scenario. -/
def idLocal : IdentityID := { HostUUID := "h1", NodeName := "n1", Role := "Admin" }

/-- A fake pre-authenticated authority that issues certificates bound to the
requested identity, as the real authority does. -/
def envAuth : Env :=
  { envOk with
    generateServerKeys := fun req => .ok
      { Key := [9, 9],
        Cert := { CertHostUUID := req.HostID, CertNodeName := req.NodeName,
                  CertRole := req.Roles.headD "", CertPub := req.PublicSSHKey },
        TLSCert := [7], TLSCACerts := [[8]] } }

/-- Rotation parameters for the `ReRegister` scenario. -/
def rparamsFix : ReRegisterParams :=
  { ID := { HostUUID := "h1", NodeName := "n1", Role := "Node" },
    AdditionalPrincipals := ["p1"], PrivateKey := [3],
    PublicTLSKey := [4], PublicSSHKey := [5] }

/-- The bundle `envAuth` returns for the `rparamsFix` request. -/
def bundleFix : PackedKeys :=
  { Key := [9, 9],
    Cert := { CertHostUUID := "h1", CertNodeName := "n1", CertRole := "Node",
              CertPub := [5] },
    TLSCert := [7], TLSCACerts := [[8]] }

/-! ## General lemmas -/

/-- `readToken` never returns an error: both branches of the file case in the
source return a `nil` error. -/
theorem readToken_isOk (readFile : String → Option String) (token : String) :
    ∃ s, readToken readFile token = .ok s := by
  unfold readToken
  split
  · exact ⟨token, rfl⟩
  · cases h : readFile token with
    | none => exact ⟨"", by simp [h]⟩
    | some out => exact ⟨trimSpace out, by simp [h]⟩

/-! ## Claims -/

/-- C8: a token that does not begin with the path-separator marker `/` passes
through `readToken` unchanged; a token that does begin with `/` names a file
whose contents are returned trimmed of surrounding whitespace. -/
theorem C8_readToken_literal_or_file (readFile : String → Option String)
    (token : String) :
    (¬ goHasPrefix token "/" → readToken readFile token = .ok token) ∧
    (goHasPrefix token "/" → ∀ content, readFile token = some content →
      readToken readFile token = .ok (trimSpace content)) := by
  constructor
  · intro h
    simp [readToken, h]
  · intro h content hc
    simp [readToken, h, hc]

/-- Witness for C8: `"abc123"` passes through unchanged, and a path-marked
token whose file contains `"mytoken\n"` resolves to `"mytoken"`. -/
theorem C8_witness :
    readToken (fun _ => some "mytoken\n") "abc123" = .ok "abc123" ∧
    readToken (fun _ => some "mytoken\n") "/var/lib/teleport/token" = .ok "mytoken" := by
  constructor
  · exact (C8_readToken_literal_or_file (fun _ => some "mytoken\n") "abc123").1 (by decide)
  · have h := (C8_readToken_literal_or_file (fun _ => some "mytoken\n")
      "/var/lib/teleport/token").2 (by decide) "mytoken\n" rfl
    have ht : trimSpace "mytoken\n" = "mytoken" := by decide
    rw [h, ht]

/-- C9: when a path-marked token's file cannot be read, `readToken` returns
the empty token with no error, and `Register` proceeds past token resolution
with the empty token instead of failing there. -/
theorem C9_unreadable_token_file (env : Env) (params : RegisterParams)
    (h1 : goHasPrefix params.Token "/")
    (h2 : env.readFile params.Token = none) :
    readToken env.readFile params.Token = .ok "" ∧
    Register env params = registerWithClient env params "" := by
  have hr : readToken env.readFile params.Token = .ok "" := by
    simp [readToken, h1, h2]
  exact ⟨hr, by simp [Register, hr]⟩

/-- C2: `Register` selects exactly one trust strategy by the precedence
insecure flag first, else non-empty CA pin, else non-empty CA path; when none
of the three is set it returns the `BadParameter` configuration error with an
empty trace — no client constructed, no client operation called. -/
theorem C2_strategy_precedence (env : Env) (params : RegisterParams) :
    (params.InsecureSkipCAVerification = true →
      buildClient env params 0 = insecureRegisterClient env params 0) ∧
    (params.InsecureSkipCAVerification = false → params.CAPin ≠ "" →
      buildClient env params 0 = pinRegisterClient env params 0) ∧
    (params.InsecureSkipCAVerification = false → params.CAPin = "" →
      params.CAPath ≠ "" →
      buildClient env params 0 = pathRegisterClient env params 0) ∧
    (params.InsecureSkipCAVerification = false → params.CAPin = "" →
      params.CAPath = "" →
      Register env params = (.error (.badParameter
        "to register node, either CA pin, CA path, or insecure configuration is required"),
        [])) := by
  refine ⟨fun h => by simp [buildClient, h],
    fun h hp => by simp [buildClient, h, hp],
    fun h hp hq => by simp [buildClient, h, hp, hq],
    fun h hp hq => ?_⟩
  obtain ⟨tok, htok⟩ := readToken_isOk env.readFile params.Token
  simp [Register, htok, registerWithClient, buildClient, h, hp, hq]

/-- Witness for C2: with no strategy set, `Register` fails with the
configuration error and an empty trace; with all three set, the insecure
strategy wins. -/
theorem C2_witness :
    Register envOk paramsNone = (.error (.badParameter
      "to register node, either CA pin, CA path, or insecure configuration is required"),
      []) ∧
    buildClient envOk paramsAll 0 = insecureRegisterClient envOk paramsAll 0 :=
  ⟨(C2_strategy_precedence envOk paramsNone).2.2.2 rfl rfl rfl,
   (C2_strategy_precedence envOk paramsAll).1 rfl⟩

/-- Witness for C9: with a path-marked token whose file read fails,
`Register` continues with the empty token. -/
theorem C9_witness :
    readToken envOk.readFile "/var/lib/teleport/token" = .ok "" ∧
    Register envOk { paramsPin with Token := "/var/lib/teleport/token" } =
      registerWithClient envOk { paramsPin with Token := "/var/lib/teleport/token" } "" := by
  have h := C9_unreadable_token_file envOk
    { paramsPin with Token := "/var/lib/teleport/token" } (by decide) rfl
  exact h

/-- C1: on the pin strategy, when the fingerprint of the CA fetched over the
phase-1 insecure connection does not match the supplied pin, `Register`
returns the trust-verification (pin-mismatch) error with no identity, and no
`RegisterUsingToken` call ever appears in the trace. -/
theorem C1_pin_mismatch_no_issuance (env : Env) (params : RegisterParams)
    (caBytes : Bytes) (ca : Cert)
    (hins : params.InsecureSkipCAVerification = false)
    (hpin : params.CAPin ≠ "")
    (hdial : env.dial params.Servers (phase1Config params) = .ok ())
    (hca : env.getLocalCA = .ok caBytes)
    (hparse : env.parseCertificatePEM caBytes = .ok ca)
    (hmm : ca.Fingerprint ≠ params.CAPin) :
    (Register env params).1 =
      .error (.trustVerification "CA pin does not match fingerprint") ∧
    ∀ i req, Event.registerUsingToken i req ∉ (Register env params).2 := by
  obtain ⟨tok, htok⟩ := readToken_isOk env.readFile params.Token
  have hskpi : CheckSKPI params.CAPin ca =
      .error (.trustVerification "CA pin does not match fingerprint") := by
    simp [CheckSKPI, hmm]
  have hd : env.dial params.Servers
      { utilsTLSConfig params.CipherSuites with InsecureSkipVerify := true } = .ok () := by
    simpa [phase1Config, utilsTLSConfig] using hdial
  constructor
  · simp [Register, htok, registerWithClient, buildClient, hins, hpin,
      pinRegisterClient, hd, hca, hparse, hskpi]
  · intro i req
    simp [Register, htok, registerWithClient, buildClient, hins, hpin,
      pinRegisterClient, hd, hca, hparse, hskpi]

/-- Witness for C1: against the fake authority whose CA fingerprint is
`"sha256:BBB"` while the pin is `"sha256:AAA"`, `Register` fails with the
pin-mismatch error and the trace carries no issuance call. -/
theorem C1_witness :
    (Register envMismatch paramsPin).1 =
      .error (.trustVerification "CA pin does not match fingerprint") ∧
    Event.registerUsingToken 0 (tokenRequest paramsPin "t1") ∉
      (Register envMismatch paramsPin).2 := by
  have h := C1_pin_mismatch_no_issuance envMismatch paramsPin [1] certB
    rfl (by decide) rfl rfl rfl (by decide)
  exact ⟨h.1, h.2 0 (tokenRequest paramsPin "t1")⟩

/-- C3: on the pin strategy with a matching fingerprint, the phase-2
connection is configured with a trust pool holding exactly the one verified
CA certificate, and the issuance call is made on the phase-2 client (index
1), not the phase-1 insecure client (index 0). -/
theorem C3_pin_match_phase2_trust (env : Env) (params : RegisterParams)
    (caBytes : Bytes) (ca : Cert) (tok : String)
    (hins : params.InsecureSkipCAVerification = false)
    (hpin : params.CAPin ≠ "")
    (htok : readToken env.readFile params.Token = .ok tok)
    (hdial1 : env.dial params.Servers (phase1Config params) = .ok ())
    (hca : env.getLocalCA = .ok caBytes)
    (hparse : env.parseCertificatePEM caBytes = .ok ca)
    (hmatch : ca.Fingerprint = params.CAPin)
    (hdial2 : env.dial params.Servers (phase2Config params ca) = .ok ()) :
    (Register env params).2 =
      [.newClient 0 params.Servers (phase1Config params),
       .getLocalCA 0,
       .newClient 1 params.Servers (phase2Config params ca),
       .closeClient 0,
       .registerUsingToken 1 (tokenRequest params tok),
       .closeClient 1] ∧
    (phase2Config params ca).RootCAs = [ca] ∧
    (phase2Config params ca).InsecureSkipVerify = false := by
  have hskpi : CheckSKPI params.CAPin ca = .ok () := by
    simp [CheckSKPI, hmatch]
  have hd1 : env.dial params.Servers
      { utilsTLSConfig params.CipherSuites with InsecureSkipVerify := true } = .ok () := by
    simpa [phase1Config, utilsTLSConfig] using hdial1
  have hd2 : env.dial params.Servers
      { utilsTLSConfig params.CipherSuites with RootCAs := [ca] } = .ok () := by
    simpa [phase2Config, utilsTLSConfig] using hdial2
  refine ⟨?_, rfl, rfl⟩
  cases hr : env.registerUsingToken (tokenRequest params tok) <;>
    simp_all [Register, htok, registerWithClient, buildClient, hins, hpin,
      pinRegisterClient, hd1, hca, hparse, hskpi, hd2, tokenRequest,
      phase1Config, phase2Config, utilsTLSConfig]

/-- Witness for C3: against the all-succeeding fake authority with matching
pin, the trace is exactly the six expected events. -/
theorem C3_witness :
    (Register envOk paramsPin).2 =
      [.newClient 0 paramsPin.Servers (phase1Config paramsPin),
       .getLocalCA 0,
       .newClient 1 paramsPin.Servers (phase2Config paramsPin certA),
       .closeClient 0,
       .registerUsingToken 1 (tokenRequest paramsPin "t1"),
       .closeClient 1] ∧
    (phase2Config paramsPin certA).RootCAs = [certA] ∧
    (phase2Config paramsPin certA).InsecureSkipVerify = false :=
  C3_pin_match_phase2_trust envOk paramsPin [1] certA "t1"
    rfl (by decide) rfl rfl rfl rfl (by decide) rfl

/-- C4: on the pin-match path against a fake authority returning bundle `B`,
the identity produced by `Register` with private key `K` is exactly the
identity assembled directly from `K` and `B` via `ReadIdentityFromKeyPair`,
with exactly one `GetLocalCA` call and exactly one `RegisterUsingToken` call
in the trace. -/
theorem C4_pin_roundtrip_identity (env : Env) (params : RegisterParams)
    (caBytes : Bytes) (ca : Cert) (tok : String) (B : PackedKeys)
    (hins : params.InsecureSkipCAVerification = false)
    (hpin : params.CAPin ≠ "")
    (htok : readToken env.readFile params.Token = .ok tok)
    (hdial1 : env.dial params.Servers (phase1Config params) = .ok ())
    (hca : env.getLocalCA = .ok caBytes)
    (hparse : env.parseCertificatePEM caBytes = .ok ca)
    (hmatch : ca.Fingerprint = params.CAPin)
    (hdial2 : env.dial params.Servers (phase2Config params ca) = .ok ())
    (hreg : env.registerUsingToken (tokenRequest params tok) = .ok B) :
    (Register env params).1 =
      .ok (ReadIdentityFromKeyPair params.PrivateKey B.Cert B.TLSCert B.TLSCACerts) ∧
    ((Register env params).2.countP Event.isGetLocalCA) = 1 ∧
    ((Register env params).2.countP Event.isRegisterUsingToken) = 1 := by
  have hskpi : CheckSKPI params.CAPin ca = .ok () := by
    simp [CheckSKPI, hmatch]
  have hd1 : env.dial params.Servers
      { utilsTLSConfig params.CipherSuites with InsecureSkipVerify := true } = .ok () := by
    simpa [phase1Config, utilsTLSConfig] using hdial1
  have hd2 : env.dial params.Servers
      { utilsTLSConfig params.CipherSuites with RootCAs := [ca] } = .ok () := by
    simpa [phase2Config, utilsTLSConfig] using hdial2
  refine ⟨?_, ?_, ?_⟩ <;>
    simp_all [Register, htok, registerWithClient, buildClient, hins, hpin,
      pinRegisterClient, hd1, hca, hparse, hskpi, hd2, tokenRequest,
      utilsTLSConfig, List.countP_cons, Event.isGetLocalCA, Event.isRegisterUsingToken]

/-- Witness for C4: the scenario of the spec — pin `"sha256:AAA"`, token
`"t1"`, fake authority with matching CA and issuance returning `bundleB1` —
produces exactly `Identity(bundleB1, provided private key)` with one
fetch-CA and one issuance call. -/
theorem C4_witness :
    (Register envOk paramsPin).1 =
      .ok (ReadIdentityFromKeyPair paramsPin.PrivateKey bundleB1.Cert
        bundleB1.TLSCert bundleB1.TLSCACerts) ∧
    ((Register envOk paramsPin).2.countP Event.isGetLocalCA) = 1 ∧
    ((Register envOk paramsPin).2.countP Event.isRegisterUsingToken) = 1 :=
  C4_pin_roundtrip_identity envOk paramsPin [1] certA "t1" bundleB1
    rfl (by decide) rfl rfl rfl rfl (by decide) rfl rfl

/-- The event trace of `Register` does not depend on the caller's private
key: `PrivateKey` is used only for the final local identity assembly. -/
theorem register_trace_const_privateKey (env : Env) (p : RegisterParams) (k : Bytes) :
    (Register env { p with PrivateKey := k }).2 = (Register env p).2 := by
  unfold Register
  dsimp only
  cases htok : readToken env.readFile p.Token with
  | error e => rfl
  | ok tok =>
    unfold registerWithClient
    rw [show buildClient env { p with PrivateKey := k } 0 = buildClient env p 0 from rfl]
    rcases hbc : buildClient env p 0 with ⟨res, evs, m⟩
    cases res with
    | error e => rfl
    | ok client =>
      dsimp only
      cases hr : env.registerUsingToken
        { Token := tok, HostID := p.ID.HostUUID, NodeName := p.ID.NodeName,
          Role := p.ID.Role, AdditionalPrincipals := p.AdditionalPrincipals,
          PublicTLSKey := p.PublicTLSKey, PublicSSHKey := p.PublicSSHKey } <;> rfl

/-- The event trace of `ReRegister` does not depend on the caller's private
key either. -/
theorem reRegister_trace_const_privateKey (env : Env) (p : ReRegisterParams) (k : Bytes) :
    (ReRegister env { p with PrivateKey := k }).2 = (ReRegister env p).2 := by
  unfold ReRegister IdentityID.HostID
  dsimp only
  cases hr : env.generateServerKeys
    { HostID := p.ID.HostUUID, NodeName := p.ID.NodeName, Roles := [p.ID.Role],
      AdditionalPrincipals := p.AdditionalPrincipals,
      PublicTLSKey := p.PublicTLSKey, PublicSSHKey := p.PublicSSHKey } <;> rfl

/-- C5: the private key never crosses the boundary — the request types carry
only the public TLS and SSH keys, and two `Register` (or `ReRegister`) runs
differing only in the `PrivateKey` field send the identical sequence of
client operations (identical requests) to the outside world. -/
theorem C5_private_key_never_transmitted (env : Env) (params : RegisterParams)
    (k1 k2 : Bytes) (rparams : ReRegisterParams) (k3 k4 : Bytes) :
    (Register env { params with PrivateKey := k1 }).2 =
      (Register env { params with PrivateKey := k2 }).2 ∧
    (ReRegister env { rparams with PrivateKey := k3 }).2 =
      (ReRegister env { rparams with PrivateKey := k4 }).2 := by
  constructor
  · rw [register_trace_const_privateKey env params k1,
      register_trace_const_privateKey env params k2]
  · rw [reRegister_trace_const_privateKey env rparams k3,
      reRegister_trace_const_privateKey env rparams k4]

/-- The client-construction phase yields one of four shapes: failure with no
client; failure after the pin phase-1 client was created, probed and closed;
one open client (insecure / path strategies, and no other event); or the pin
success shape — two clients with the first one closed. -/
theorem buildClient_cases (env : Env) (params : RegisterParams) :
    (∃ e, buildClient env params 0 = (.error e, [], 0)) ∨
    (∃ e c, buildClient env params 0 =
      (.error e, [.newClient 0 params.Servers c, .getLocalCA 0, .closeClient 0], 1)) ∨
    (∃ c, buildClient env params 0 = (.ok 0, [.newClient 0 params.Servers c], 1)) ∨
    (∃ c1 c2, buildClient env params 0 =
      (.ok 1, [.newClient 0 params.Servers c1, .getLocalCA 0,
               .newClient 1 params.Servers c2, .closeClient 0], 2)) := by
  unfold buildClient
  split_ifs with h1 h2 h3
  · unfold insecureRegisterClient
    dsimp only [utilsTLSConfig]
    cases hd : env.dial params.Servers
        { CipherSuites := params.CipherSuites, InsecureSkipVerify := true, RootCAs := [] } with
    | error e => exact .inl ⟨e, by simp [hd]⟩
    | ok u => exact .inr (.inr (.inl ⟨phase1Config params, by cases u; simp [hd, phase1Config]⟩))
  · unfold pinRegisterClient
    dsimp only [utilsTLSConfig]
    cases hd : env.dial params.Servers
        { CipherSuites := params.CipherSuites, InsecureSkipVerify := true, RootCAs := [] } with
    | error e => exact .inl ⟨e, by simp [hd]⟩
    | ok u =>
      cases u
      cases hca : env.getLocalCA with
      | error e => exact .inr (.inl ⟨e, phase1Config params, by simp [hd, hca, phase1Config]⟩)
      | ok caBytes =>
        cases hp : env.parseCertificatePEM caBytes with
        | error e => exact .inr (.inl ⟨e, phase1Config params, by simp [hd, hca, hp, phase1Config]⟩)
        | ok ca =>
          cases hs : CheckSKPI params.CAPin ca with
          | error e =>
            exact .inr (.inl ⟨e, phase1Config params, by simp [hd, hca, hp, hs, phase1Config]⟩)
          | ok v =>
            cases v
            cases hd2 : env.dial params.Servers
                { CipherSuites := params.CipherSuites, InsecureSkipVerify := false,
                  RootCAs := [ca] } with
            | error e =>
              exact .inr (.inl ⟨e, phase1Config params,
                by simp [hd, hca, hp, hs, hd2, phase1Config]⟩)
            | ok w =>
              exact .inr (.inr (.inr ⟨phase1Config params, phase2Config params ca,
                by cases w; simp [hd, hca, hp, hs, hd2, phase1Config, phase2Config]⟩))
  · unfold pathRegisterClient
    cases hr : env.readPath params.CAPath with
    | error e => exact .inl ⟨e, by simp [hr]⟩
    | ok certBytes =>
      cases hp : env.parseCertificatePEM certBytes with
      | error e => exact .inl ⟨e, by simp [hr, hp]⟩
      | ok cert =>
        dsimp only [utilsTLSConfig]
        cases hd : env.dial params.Servers
            { CipherSuites := params.CipherSuites, InsecureSkipVerify := false,
              RootCAs := [cert] } with
        | error e => exact .inl ⟨e, by simp [hr, hp, hd]⟩
        | ok u =>
          exact .inr (.inr (.inl ⟨phase2Config params cert,
            by cases u; simp [hr, hp, hd, phase2Config]⟩))
  · exact .inl ⟨_, rfl⟩

/-- C6: in every `Register` attempt — all three trust strategies, success and
failure paths, both pin-strategy connections — each client that is
constructed has its close operation in the trace exactly once, and every
close in the trace belongs to a constructed client. -/
theorem C6_clients_closed_exactly_once (env : Env) (params : RegisterParams) :
    (∀ i s cfg, Event.newClient i s cfg ∈ (Register env params).2 →
      ((Register env params).2.count (Event.closeClient i)) = 1) ∧
    (∀ i, Event.closeClient i ∈ (Register env params).2 →
      ∃ s cfg, Event.newClient i s cfg ∈ (Register env params).2) := by
  obtain ⟨tok, htok⟩ := readToken_isOk env.readFile params.Token
  have hreg : Register env params = registerWithClient env params tok := by
    simp [Register, htok]
  rw [hreg]
  unfold registerWithClient
  rcases buildClient_cases env params with ⟨e, hb⟩ | ⟨e, c, hb⟩ | ⟨c, hb⟩ | ⟨c1, c2, hb⟩ <;>
    rw [hb] <;> dsimp only
  · constructor
    · intro i s cfg hmem
      simp at hmem
    · intro i hmem
      simp at hmem
  · constructor
    · intro i s cfg hmem
      simp only [List.mem_cons, List.not_mem_nil, or_false] at hmem
      rcases hmem with h | h | h <;> simp_all [List.count_cons]
    · intro i hmem
      simp only [List.mem_cons, List.not_mem_nil, or_false] at hmem
      rcases hmem with h | h | h <;> simp_all
  · cases hrut : env.registerUsingToken
        { Token := tok, HostID := params.ID.HostUUID, NodeName := params.ID.NodeName,
          Role := params.ID.Role, AdditionalPrincipals := params.AdditionalPrincipals,
          PublicTLSKey := params.PublicTLSKey, PublicSSHKey := params.PublicSSHKey } <;>
      dsimp only <;> simp only [List.cons_append, List.nil_append] <;> constructor
    · intro i s cfg hmem
      simp only [List.mem_cons, List.not_mem_nil, or_false] at hmem
      rcases hmem with h | h | h <;> simp_all [List.count_cons]
    · intro i hmem
      simp only [List.mem_cons, List.not_mem_nil, or_false] at hmem
      rcases hmem with h | h | h <;> simp_all
    · intro i s cfg hmem
      simp only [List.mem_cons, List.not_mem_nil, or_false] at hmem
      rcases hmem with h | h | h <;> simp_all [List.count_cons]
    · intro i hmem
      simp only [List.mem_cons, List.not_mem_nil, or_false] at hmem
      rcases hmem with h | h | h <;> simp_all
  · cases hrut : env.registerUsingToken
        { Token := tok, HostID := params.ID.HostUUID, NodeName := params.ID.NodeName,
          Role := params.ID.Role, AdditionalPrincipals := params.AdditionalPrincipals,
          PublicTLSKey := params.PublicTLSKey, PublicSSHKey := params.PublicSSHKey } <;>
      dsimp only <;> simp only [List.cons_append, List.nil_append] <;> constructor
    · intro i s cfg hmem
      simp only [List.mem_cons, List.not_mem_nil, or_false] at hmem
      rcases hmem with h | h | h | h | h | h <;> simp_all [List.count_cons]
    · intro i hmem
      simp only [List.mem_cons, List.not_mem_nil, or_false] at hmem
      rcases hmem with h | h | h | h | h | h <;> simp_all
    · intro i s cfg hmem
      simp only [List.mem_cons, List.not_mem_nil, or_false] at hmem
      rcases hmem with h | h | h | h | h | h <;> simp_all [List.count_cons]
    · intro i hmem
      simp only [List.mem_cons, List.not_mem_nil, or_false] at hmem
      rcases hmem with h | h | h | h | h | h <;> simp_all

/-- Witness for C6: in the successful pin-strategy run against the fake
authority, both the phase-1 and the phase-2 client are closed exactly once. -/
theorem C6_witness :
    ((Register envOk paramsPin).2.count (Event.closeClient 0)) = 1 ∧
    ((Register envOk paramsPin).2.count (Event.closeClient 1)) = 1 :=
  ⟨(C6_clients_closed_exactly_once envOk paramsPin).1 0 paramsPin.Servers
      (phase1Config paramsPin) (by decide),
   (C6_clients_closed_exactly_once envOk paramsPin).1 1 paramsPin.Servers
      (phase2Config paramsPin certA) (by decide)⟩

/-- Counterexample to C7 as stated: `LocalRegister` takes no caller private
key; at a concrete fake authority it assembles the identity from the
private key returned inside the bundle (`keys.Key = [9, 9]`), not from any
caller-supplied private key. -/
theorem C7_counterexample :
    (LocalRegister envOk idLocal ["p1"]).1 =
      .ok (ReadIdentityFromKeyPair [9, 9] bundleB1.Cert bundleB1.TLSCert
        bundleB1.TLSCACerts) ∧
    bundleB1.Key = [9, 9] :=
  ⟨rfl, rfl⟩

/-- C7 (amended): `LocalRegister` bypasses trust and token resolution and
performs no network/client call — its trace is exactly one
`GenerateServerKeys` call carrying the `IdentityID` fields and the
additional principals — and it assembles the `Identity` with the same
`ReadIdentityFromKeyPair` used by the network path, but from the returned
bundle together with the authority-generated private key `keys.Key` (it has
no caller-supplied private key). -/
theorem C7_local_register_amended (env : Env) (id : IdentityID)
    (prins : List String) (keys : PackedKeys)
    (h : env.generateServerKeys
      { HostID := id.HostUUID, NodeName := id.NodeName, Roles := [id.Role],
        AdditionalPrincipals := prins, PublicTLSKey := [], PublicSSHKey := [] } = .ok keys) :
    LocalRegister env id prins =
      (.ok (ReadIdentityFromKeyPair keys.Key keys.Cert keys.TLSCert keys.TLSCACerts),
       [.generateServerKeys
         { HostID := id.HostUUID, NodeName := id.NodeName, Roles := [id.Role],
           AdditionalPrincipals := prins, PublicTLSKey := [], PublicSSHKey := [] }]) := by
  simp [LocalRegister, h]

/-- Witness for C7 (amended): at the concrete fake authority the local path
produces the identity assembled from `bundleB1` and `bundleB1.Key`, with a
single `GenerateServerKeys` event. -/
theorem C7_witness :
    LocalRegister envOk idLocal ["p1"] =
      (.ok (ReadIdentityFromKeyPair bundleB1.Key bundleB1.Cert bundleB1.TLSCert
        bundleB1.TLSCACerts),
       [.generateServerKeys
         { HostID := "h1", NodeName := "n1", Roles := ["Admin"],
           AdditionalPrincipals := ["p1"], PublicTLSKey := [], PublicSSHKey := [] }]) :=
  C7_local_register_amended envOk idLocal ["p1"] bundleB1 rfl

/-- C10: `ReRegister` has no token among its parameters and runs no trust or
token step — its trace is exactly one `GenerateServerKeys` call carrying
the input ID's host identity, node name and role plus the fresh public keys;
when the pre-authenticated client returns a bundle bound to that identity,
the result is the identity assembled from the caller's private key and the
bundle, and its host identity equals the input `IdentityID`. -/
theorem C10_reregister_rotation (env : Env) (params : ReRegisterParams)
    (keys : PackedKeys)
    (hgen : env.generateServerKeys
      { HostID := params.ID.HostUUID, NodeName := params.ID.NodeName,
        Roles := [params.ID.Role], AdditionalPrincipals := params.AdditionalPrincipals,
        PublicTLSKey := params.PublicTLSKey, PublicSSHKey := params.PublicSSHKey } = .ok keys)
    (hb1 : keys.Cert.CertHostUUID = params.ID.HostUUID)
    (hb2 : keys.Cert.CertNodeName = params.ID.NodeName)
    (hb3 : keys.Cert.CertRole = params.ID.Role) :
    ReRegister env params =
      (.ok (ReadIdentityFromKeyPair params.PrivateKey keys.Cert keys.TLSCert keys.TLSCACerts),
       [.generateServerKeys
         { HostID := params.ID.HostUUID, NodeName := params.ID.NodeName,
           Roles := [params.ID.Role], AdditionalPrincipals := params.AdditionalPrincipals,
           PublicTLSKey := params.PublicTLSKey, PublicSSHKey := params.PublicSSHKey }]) ∧
    (ReadIdentityFromKeyPair params.PrivateKey keys.Cert keys.TLSCert keys.TLSCACerts).ID =
      params.ID := by
  constructor
  · simp [ReRegister, IdentityID.HostID, hgen]
  · simp [ReadIdentityFromKeyPair, hb1, hb2, hb3]

/-- Witness for C10: against the pre-authenticated fake authority `envAuth`,
rotation succeeds with one issuance call and the returned identity's host
identity equals the input `IdentityID`. -/
theorem C10_witness :
    ReRegister envAuth rparamsFix =
      (.ok (ReadIdentityFromKeyPair rparamsFix.PrivateKey bundleFix.Cert
        bundleFix.TLSCert bundleFix.TLSCACerts),
       [.generateServerKeys
         { HostID := rparamsFix.ID.HostUUID, NodeName := rparamsFix.ID.NodeName,
           Roles := [rparamsFix.ID.Role],
           AdditionalPrincipals := rparamsFix.AdditionalPrincipals,
           PublicTLSKey := rparamsFix.PublicTLSKey,
           PublicSSHKey := rparamsFix.PublicSSHKey }]) ∧
    (ReadIdentityFromKeyPair rparamsFix.PrivateKey bundleFix.Cert bundleFix.TLSCert
      bundleFix.TLSCACerts).ID = rparamsFix.ID :=
  C10_reregister_rotation envAuth rparamsFix bundleFix rfl rfl rfl rfl
